import Mathlib

/-!
Shallow embedding of the credential & token component of the EPIC EHR MCP
server (src/auth.py, src/models.py, src/server.py), with theorems checking
the natural-language specification against it.

Machine words are `Nat` reduced modulo `2^32` where the Python code relies
on fixed-width arithmetic (inside SHA-256); time is `Nat` seconds since the
epoch, passed explicitly where the Python code calls `datetime.utcnow()`;
the SQLAlchemy table `oauth_clients` is a `List OAuthClient` with the
unique constraint on `client_id` checked at insert time.
-/

set_option maxRecDepth 40000

namespace EhrAuth

/-! ## SHA-256 (the computation behind `hashlib.sha256(...).hexdigest()`) -/

/-- Truncate to a 32-bit word. -/
def w32 (n : Nat) : Nat := n % 4294967296

/-- Right rotation of a 32-bit word. -/
def rotr (x n : Nat) : Nat := w32 ((x >>> n) ||| (x <<< (32 - n)))

/-- Bitwise complement within 32 bits. -/
def notW (x : Nat) : Nat := x ^^^ 4294967295

def ch (x y z : Nat) : Nat := (x &&& y) ^^^ (notW x &&& z)

def maj (x y z : Nat) : Nat := (x &&& y) ^^^ (x &&& z) ^^^ (y &&& z)

def bsig0 (x : Nat) : Nat := rotr x 2 ^^^ rotr x 13 ^^^ rotr x 22

def bsig1 (x : Nat) : Nat := rotr x 6 ^^^ rotr x 11 ^^^ rotr x 25

def ssig0 (x : Nat) : Nat := rotr x 7 ^^^ rotr x 18 ^^^ (x >>> 3)

def ssig1 (x : Nat) : Nat := rotr x 17 ^^^ rotr x 19 ^^^ (x >>> 10)

/-- SHA-256 round constants (fractional parts of cube roots of the first 64 primes). -/
def sha256K : List Nat := [
  1116352408, 1899447441, 3049323471, 3921009573,
  961987163, 1508970993, 2453635748, 2870763221,
  3624381080, 310598401, 607225278, 1426881987,
  1925078388, 2162078206, 2614888103, 3248222580,
  3835390401, 4022224774, 264347078, 604807628,
  770255983, 1249150122, 1555081692, 1996064986,
  2554220882, 2821834349, 2952996808, 3210313671,
  3336571891, 3584528711, 113926993, 338241895,
  666307205, 773529912, 1294757372, 1396182291,
  1695183700, 1986661051, 2177026350, 2456956037,
  2730485921, 2820302411, 3259730800, 3345764771,
  3516065817, 3600352804, 4094571909, 275423344,
  430227734, 506948616, 659060556, 883997877,
  958139571, 1322822218, 1537002063, 1747873779,
  1955562222, 2024104815, 2227730452, 2361852424,
  2428436474, 2756734187, 3204031479, 3329325298]

/-- The eight 32-bit working variables of the compression function. -/
structure Hash8 where
  a : Nat
  b : Nat
  c : Nat
  d : Nat
  e : Nat
  f : Nat
  g : Nat
  h : Nat
deriving DecidableEq, Repr

/-- SHA-256 initial hash value (fractional parts of square roots of the first 8 primes). -/
def sha256Init : Hash8 :=
  ⟨1779033703, 3144134277, 1013904242, 2773480762,
   1359893119, 2600822924, 528734635, 1541459225⟩

/-- One round of the SHA-256 compression function. -/
def sha256Round (st : Hash8) (k w : Nat) : Hash8 :=
  let t1 := w32 (st.h + bsig1 st.e + ch st.e st.f st.g + k + w)
  let t2 := w32 (bsig0 st.a + maj st.a st.b st.c)
  ⟨w32 (t1 + t2), st.a, st.b, st.c, w32 (st.d + t1), st.e, st.f, st.g⟩

/-- Group bytes into big-endian 32-bit words. -/
def bytesToWords : List Nat → List Nat
  | b0 :: b1 :: b2 :: b3 :: rest =>
      (b0 * 16777216 + b1 * 65536 + b2 * 256 + b3) :: bytesToWords rest
  | _ => []

/-- Iterate a function `n` times (structural recursion, kernel-reducible). -/
def iterN (f : α → α) : Nat → α → α
  | 0, x => x
  | n + 1, x => iterN f n (f x)

/-- One message-schedule extension step; the word list is most-recent-first. -/
def scheduleStep (w : List Nat) : List Nat :=
  w32 (ssig1 (w.getD 1 0) + w.getD 6 0 + ssig0 (w.getD 14 0) + w.getD 15 0) :: w

/-- Expand the 16 block words to the 64 schedule words W0..W63. -/
def schedule (ws : List Nat) : List Nat :=
  (iterN scheduleStep 48 ws.reverse).reverse

/-- Zip with explicit recursion so proofs and the kernel may unfold it plainly. -/
def zipPair : List Nat → List Nat → List (Nat × Nat)
  | k :: ks, w :: wsR => (k, w) :: zipPair ks wsR
  | _, _ => []

/-- Compress one 64-byte block into the running hash state. -/
def compressBlock (st : Hash8) (block : List Nat) : Hash8 :=
  let ws := schedule (bytesToWords block)
  let fin := (zipPair sha256K ws).foldl (fun s kw => sha256Round s kw.1 kw.2) st
  ⟨w32 (st.a + fin.a), w32 (st.b + fin.b), w32 (st.c + fin.c), w32 (st.d + fin.d),
   w32 (st.e + fin.e), w32 (st.f + fin.f), w32 (st.g + fin.g), w32 (st.h + fin.h)⟩

/-- The eight big-endian bytes of the 64-bit message bit length. -/
def lengthBytes (bitLen : Nat) : List Nat :=
  [(bitLen >>> 56) % 256, (bitLen >>> 48) % 256, (bitLen >>> 40) % 256,
   (bitLen >>> 32) % 256, (bitLen >>> 24) % 256, (bitLen >>> 16) % 256,
   (bitLen >>> 8) % 256, bitLen % 256]

/-- SHA-256 padding: 0x80, zeros to 56 mod 64, then the bit length. -/
def padMessage (msg : List Nat) : List Nat :=
  let L := msg.length
  let z := (64 - ((L + 9) % 64)) % 64
  msg ++ [128] ++ List.replicate z 0 ++ lengthBytes (8 * L)

/-- Split a byte list into 64-byte chunks; the fuel (the list length) bounds
the recursion structurally so the kernel can evaluate it. -/
def chunks64 : Nat → List Nat → List (List Nat)
  | 0, _ => []
  | _, [] => []
  | fuel + 1, l => l.take 64 :: chunks64 fuel (l.drop 64)

/-- The four big-endian bytes of a 32-bit word. -/
def wordBytes (w : Nat) : List Nat :=
  [(w >>> 24) % 256, (w >>> 16) % 256, (w >>> 8) % 256, w % 256]

/-- Serialize the final state as 32 digest bytes. -/
def stateBytes (st : Hash8) : List Nat :=
  wordBytes st.a ++ wordBytes st.b ++ wordBytes st.c ++ wordBytes st.d ++
  wordBytes st.e ++ wordBytes st.f ++ wordBytes st.g ++ wordBytes st.h

/-- SHA-256 of a byte list: 32 digest bytes. -/
def sha256Bytes (msg : List Nat) : List Nat :=
  let padded := padMessage msg
  stateBytes ((chunks64 padded.length padded).foldl compressBlock sha256Init)

/-- Lowercase hexadecimal digit. -/
def hexChar (n : Nat) : Char :=
  if n < 10 then Char.ofNat (48 + n) else Char.ofNat (87 + n)

/-- Two lowercase hex characters of one byte, as `hexdigest` formats them. -/
def byteToHex (b : Nat) : List Char :=
  [hexChar (b / 16), hexChar (b % 16)]

/-- Hex string of a byte list (explicit recursion on the list). -/
def bytesToHexChars : List Nat → List Char
  | [] => []
  | b :: rest => byteToHex b ++ bytesToHexChars rest

def bytesToHex (bs : List Nat) : String := ⟨bytesToHexChars bs⟩

/-- UTF-8 encoding of one character, as Python's `str.encode()` produces it. -/
def utf8EncodeChar (c : Char) : List Nat :=
  let n := c.toNat
  if n < 128 then [n]
  else if n < 2048 then [192 ||| (n >>> 6), 128 ||| (n &&& 63)]
  else if n < 65536 then
    [224 ||| (n >>> 12), 128 ||| ((n >>> 6) &&& 63), 128 ||| (n &&& 63)]
  else
    [240 ||| (n >>> 18), 128 ||| ((n >>> 12) &&& 63),
     128 ||| ((n >>> 6) &&& 63), 128 ||| (n &&& 63)]

/-- UTF-8 bytes of a string. -/
def strBytes (s : String) : List Nat :=
  (s.data.map utf8EncodeChar).foldr (fun x acc => x ++ acc) []

/-- `hash_secret` from src/auth.py: SHA-256 hexdigest of the UTF-8 secret. -/
def hash_secret (secret : String) : String :=
  bytesToHex (sha256Bytes (strBytes secret))

/-- `verify_secret` from src/auth.py: re-hash and compare. -/
def verify_secret (secret secret_hash : String) : Bool :=
  hash_secret secret == secret_hash

/-! ## JWT tokens (src/auth.py, PyJWT HS256)

A signed token is modelled algebraically: `TokenWire.signed p k` is the
compact string `jwt.encode(p, k, "HS256")`, carrying its payload and the
key its HMAC was computed with; `TokenWire.malformed` stands for any
string that is not a well-formed token signed with some key — in
particular a token whose signed bytes were corrupted. `jwt.decode`
succeeds exactly on tokens signed with the verification key (HMAC
tamper-evidence), checking the signature before the `exp` claim, which
PyJWT treats as expired once `exp <= now`. -/

/-- `SECRET_KEY` from src/auth.py (the environment default). -/
def SECRET_KEY : String := "your-secret-key-change-in-production"

def ACCESS_TOKEN_EXPIRE_MINUTES : Nat := 60

/-- The JWT claims dictionary built by `create_access_token`. -/
structure JwtPayload where
  client_id : String
  app_id : String
  role : String
  scopes : List String
  type : String
  exp : Nat
  iat : Nat
deriving DecidableEq, Repr

inductive TokenWire where
  | signed (payload : JwtPayload) (key : String)
  | malformed
deriving DecidableEq, Repr

/-- `create_access_token` from src/auth.py; `now` is `datetime.utcnow()`
in epoch seconds. -/
def create_access_token (client_id app_id role : String) (scopes : List String)
    (now : Nat) : TokenWire :=
  TokenWire.signed
    { client_id := client_id, app_id := app_id, role := role, scopes := scopes,
      type := "access", exp := now + ACCESS_TOKEN_EXPIRE_MINUTES * 60, iat := now }
    SECRET_KEY

/-- `verify_token` from src/auth.py: decode with `SECRET_KEY`, mapping
`jwt.ExpiredSignatureError` to "Token has expired" and every other
`jwt.InvalidTokenError` (bad signature, malformed structure) to
"Invalid token". -/
def verify_token (token : TokenWire) (now : Nat) : Except String JwtPayload :=
  match token with
  | TokenWire.malformed => Except.error "Invalid token"
  | TokenWire.signed p k =>
    if k ≠ SECRET_KEY then Except.error "Invalid token"
    else if p.exp ≤ now then Except.error "Token has expired"
    else Except.ok p

/-- Result dictionary of `validate_token`: the `valid` flag is the
constructor; `ok` carries client_id, app_id, role, scopes. -/
inductive ValidateResult where
  | ok (client_id app_id role : String) (scopes : List String)
  | err (error : String)
deriving DecidableEq, Repr

/-- `validate_token` from src/auth.py. -/
def validate_token (token : TokenWire) (now : Nat) : ValidateResult :=
  match verify_token token now with
  | Except.error e => ValidateResult.err e
  | Except.ok p =>
    if p.type ≠ "access" then ValidateResult.err "Invalid token type"
    else ValidateResult.ok p.client_id p.app_id p.role p.scopes

/-- `require_role` from src/auth.py. -/
def require_role (token : TokenWire) (now : Nat) (required_roles : List String) : Bool :=
  match validate_token token now with
  | ValidateResult.err _ => false
  | ValidateResult.ok _ _ role _ => required_roles.contains role

/-- `require_scope` from src/auth.py. -/
def require_scope (token : TokenWire) (now : Nat) (required_scope : String) : Bool :=
  match validate_token token now with
  | ValidateResult.err _ => false
  | ValidateResult.ok _ _ _ scopes => scopes.contains required_scope

/-! ## The `oauth_clients` table (src/models.py) and the auth flows -/

/-- One row of `oauth_clients`. The `scopes` column holds JSON text
(`json.dumps` of a string list, or NULL), modelled as the decoded value
since `json.loads` round-trips lists of strings; `none` is NULL/empty,
which `auth.py` treats as the empty scope list. -/
structure OAuthClient where
  client_id : String
  client_secret_hash : String
  app_id : String
  app_name : String
  scopes : Option (List String)
  role : String
  description : String
  contact_email : String
  created_at : Nat
  is_active : Bool
  last_used : Option Nat
  rate_limit : Nat
deriving DecidableEq, Repr

/-- The filter of `authenticate_client`'s query:
`client_id == ..., app_id == ..., is_active == True`. -/
def authMatch (client_id app_id : String) (c : OAuthClient) : Bool :=
  c.client_id == client_id && c.app_id == app_id && c.is_active

/-- The denormalized `client_info` of a successful authentication. -/
structure ClientInfo where
  client_id : String
  app_id : String
  app_name : String
  role : String
deriving DecidableEq, Repr

/-- Return dictionary of `authenticate_client`: `status` is the
constructor; `success` carries access_token, token_type, expires_in,
scope (space-joined) and client_info. -/
inductive AuthResult where
  | error (message : String)
  | success (access_token : TokenWire) (token_type : String) (expires_in : Nat)
      (scope : String) (client_info : ClientInfo)
deriving DecidableEq, Repr

/-- In-place ORM update of the first row matching `p` (the row
`query(...).first()` returned). -/
def updateFirst (p : OAuthClient → Bool) (f : OAuthClient → OAuthClient) :
    List OAuthClient → List OAuthClient
  | [] => []
  | c :: rest => if p c then f c :: rest else c :: updateFirst p f rest

/-- `authenticate_client` from src/auth.py, as a transformer of the
`oauth_clients` table; `now` is `datetime.utcnow()` in epoch seconds.
Returns the response dictionary and the table after the session commit. -/
def authenticate_client (db : List OAuthClient)
    (client_id client_secret app_id : String) (now : Nat) :
    AuthResult × List OAuthClient :=
  match db.find? (authMatch client_id app_id) with
  | none => (AuthResult.error "Invalid client credentials", db)
  | some client =>
    if verify_secret client_secret client.client_secret_hash = false then
      (AuthResult.error "Invalid client credentials", db)
    else
      let scopes := client.scopes.getD []
      let access_token :=
        create_access_token client.client_id client.app_id client.role scopes now
      (AuthResult.success access_token "Bearer" (ACCESS_TOKEN_EXPIRE_MINUTES * 60)
         (String.intercalate " " scopes)
         ⟨client.client_id, client.app_id, client.app_name, client.role⟩,
       updateFirst (authMatch client_id app_id)
         (fun c => { c with last_used := some now }) db)

/-- Return dictionary of `register_client`. -/
inductive RegisterResult where
  | error (message : String)
  | success (client_id client_secret app_id app_name role : String)
      (scopes : List String) (message : String)
deriving DecidableEq, Repr

/-- `generate_client_credentials` from src/auth.py; the two
`secrets.token_urlsafe` draws are passed in as `rand_id`, `rand_secret`. -/
def generate_client_credentials (rand_id rand_secret : String) : String × String :=
  ("client_" ++ rand_id, rand_secret)

/-- The warning message returned by a successful registration. -/
def registerSuccessMessage : String :=
  "⚠️  IMPORTANT: Save the client_secret securely. It cannot be retrieved again!"

/-- The stringified IntegrityError the storage layer raises when the
unique constraint on `oauth_clients.client_id` rejects an insert. -/
def duplicateClientMessage : String :=
  "UNIQUE constraint failed: oauth_clients.client_id"

/-- The `OAuthClient(...)` row constructed inside `register_client`
(`created_at` and `rate_limit` take their column defaults at insert). -/
def newOAuthClient (app_id app_name role : String) (scopes : List String)
    (description contact_email : String) (client_id client_secret : String)
    (now : Nat) : OAuthClient :=
  { client_id := client_id, client_secret_hash := hash_secret client_secret,
    app_id := app_id, app_name := app_name, scopes := some scopes, role := role,
    description := description, contact_email := contact_email,
    created_at := now, is_active := true, last_used := none, rate_limit := 1000 }

/-- The storage collaborator's insert: the unique constraint on
`client_id` declared in src/models.py rejects a duplicate with an
IntegrityError; otherwise the row is appended. -/
def insertClient (db : List OAuthClient) (c : OAuthClient) :
    Except String (List OAuthClient) :=
  if db.any (fun c0 => c0.client_id == c.client_id) then
    Except.error duplicateClientMessage
  else
    Except.ok (db ++ [c])

/-- `register_client` from src/auth.py, as a transformer of the
`oauth_clients` table. The `except` branch rolls the session back, so the
table is unchanged on failure. -/
def register_client (db : List OAuthClient)
    (app_id app_name role : String) (scopes : List String)
    (description contact_email : String) (rand_id rand_secret : String)
    (now : Nat) : RegisterResult × List OAuthClient :=
  let creds := generate_client_credentials rand_id rand_secret
  let client_id := creds.1
  let client_secret := creds.2
  let client :=
    newOAuthClient app_id app_name role scopes description contact_email
      client_id client_secret now
  match insertClient db client with
  | Except.error e => (RegisterResult.error e, db)
  | Except.ok db1 =>
    (RegisterResult.success client_id client_secret app_id app_name role scopes
       registerSuccessMessage, db1)

/-! ## The operation dispatcher (src/server.py, `call_tool`) -/

/-- The three auth operations handled without a bearer token. -/
def authOps : List String := ["authenticate", "register_client", "validate_token"]

/-- The record-access handlers routed to after token validation. -/
def recordHandlers : List String :=
  ["get_patient", "search_patients", "create_patient",
   "get_appointments", "schedule_appointment",
   "get_medications", "prescribe_medication",
   "get_lab_results", "get_vital_signs", "record_vital_signs",
   "get_allergies"]

/-- The part of the argument bag the dispatch guard inspects:
`arguments.get("access_token")`. -/
structure ToolRequest where
  access_token : Option TokenWire
deriving DecidableEq, Repr

/-- Observable outcome of one `call_tool` dispatch: an auth operation was
delegated to the auth module, a record-access handler was invoked, or the
request was rejected (a raised ValueError serialized by the outer
`except` as a status:error response) before any handler ran. -/
inductive CallOutcome where
  | authOp (name : String)
  | handlerInvoked (name : String)
  | rejected (message : String)
deriving DecidableEq, Repr

/-- `call_tool` from src/server.py, reduced to its dispatch decision: the
three auth branches delegate to `authenticate_client`, `register_client`
and `validate_token` above; every other name first requires a present and
valid bearer token, then routes through the elif chain of handlers. -/
def call_tool (name : String) (req : ToolRequest) (now : Nat) : CallOutcome :=
  if name == "authenticate" then CallOutcome.authOp name
  else if name == "register_client" then CallOutcome.authOp name
  else if name == "validate_token" then CallOutcome.authOp name
  else
    match req.access_token with
    | none => CallOutcome.rejected "Access token required"
    | some token =>
      match validate_token token now with
      | ValidateResult.err e => CallOutcome.rejected ("Invalid token: " ++ e)
      | ValidateResult.ok _ _ _ _ =>
        if recordHandlers.contains name then CallOutcome.handlerInvoked name
        else CallOutcome.rejected ("Unknown tool: " ++ name)

/-! ## Helper lemmas -/

theorem updateFirst_length (p : OAuthClient → Bool) (f : OAuthClient → OAuthClient) :
    ∀ l : List OAuthClient, (updateFirst p f l).length = l.length := by
  intro l
  induction l with
  | nil => rfl
  | cons c rest ih =>
    by_cases hc : p c <;> simp [updateFirst, hc, ih]

theorem updateFirst_getElem (p : OAuthClient → Bool) (f : OAuthClient → OAuthClient) :
    ∀ (l : List OAuthClient) (i : Nat),
      (updateFirst p f l)[i]? = l[i]? ∨
      ∃ c, l[i]? = some c ∧ (updateFirst p f l)[i]? = some (f c) := by
  intro l
  induction l with
  | nil => intro i; left; rfl
  | cons c rest ih =>
    intro i
    by_cases hc : p c
    · have he : updateFirst p f (c :: rest) = f c :: rest := by simp [updateFirst, hc]
      cases i with
      | zero => right; exact ⟨c, by simp, by simp [he]⟩
      | succ j => left; simp [he]
    · have he : updateFirst p f (c :: rest) = c :: updateFirst p f rest := by
        simp [updateFirst, hc]
      cases i with
      | zero => left; simp [he]
      | succ j =>
        cases ih j with
        | inl h => left; simpa [he] using h
        | inr h =>
          obtain ⟨x, hx1, hx2⟩ := h
          right
          exact ⟨x, by simpa using hx1, by simpa [he] using hx2⟩

theorem updateFirst_append (p : OAuthClient → Bool) (f : OAuthClient → OAuthClient)
    (l1 l2 : List OAuthClient) (h : ∀ c ∈ l1, p c = false) :
    updateFirst p f (l1 ++ l2) = l1 ++ updateFirst p f l2 := by
  induction l1 with
  | nil => rfl
  | cons c rest ih =>
    have hc : p c = false := h c (by simp)
    simp [updateFirst, hc]
    exact ih (fun x hx => h x (by simp [hx]))

/-! ## Claims -/

/-- C1: for every tuple (clientId, applicationId, role, scopes), including
an empty scopes list, `validate_token` applied to the token produced by
`create_access_token` returns valid with exactly the issued client_id,
app_id, role and scopes, at any instant inside the 60-minute window. -/
theorem validate_issue_roundtrip (c a r : String) (s : List String)
    (issued now : Nat) (hnow : now < issued + 3600) :
    validate_token (create_access_token c a r s issued) now =
      ValidateResult.ok c a r s := by
  have hexp : ¬ (issued + ACCESS_TOKEN_EXPIRE_MINUTES * 60 ≤ now) := by
    simp only [ACCESS_TOKEN_EXPIRE_MINUTES]; omega
  simp [validate_token, create_access_token, verify_token, hexp]

theorem validate_issue_roundtrip_witness :
    (0 : Nat) < 0 + 3600 ∧
    validate_token (create_access_token "client_w" "app_w" "doctor" [] 0) 0 =
      ValidateResult.ok "client_w" "app_w" "doctor" [] :=
  ⟨by decide, validate_issue_roundtrip "client_w" "app_w" "doctor" [] 0 0 (by decide)⟩

/-- C5: `verify_token` fails with "Token has expired" exactly when the
token is signed with the server key but the current time has passed the
embedded expiry, fails with "Invalid token" when the structure is
malformed (e.g. a corrupted signed payload) or the signature was not
produced with the server key, and otherwise returns the decoded payload. -/
theorem verify_token_cases (t : TokenWire) (now : Nat) :
    (∀ p, t = TokenWire.signed p SECRET_KEY → p.exp ≤ now →
      verify_token t now = Except.error "Token has expired") ∧
    (∀ p, t = TokenWire.signed p SECRET_KEY → now < p.exp →
      verify_token t now = Except.ok p) ∧
    (t = TokenWire.malformed → verify_token t now = Except.error "Invalid token") ∧
    (∀ p k, t = TokenWire.signed p k → k ≠ SECRET_KEY →
      verify_token t now = Except.error "Invalid token") := by
  refine ⟨?_, ?_, ?_, ?_⟩
  · intro p ht hexp
    subst ht
    simp [verify_token, hexp]
  · intro p ht hexp
    subst ht
    simp [verify_token, Nat.not_le.mpr hexp]
  · intro ht
    subst ht
    simp [verify_token]
  · intro p k ht hk
    subst ht
    simp [verify_token, hk]

theorem verify_token_cases_witness :
    verify_token (TokenWire.signed
      { client_id := "c", app_id := "a", role := "doctor", scopes := [],
        type := "access", exp := 10, iat := 0 } "forged-key") 0 =
      Except.error "Invalid token" ∧
    verify_token (TokenWire.signed
      { client_id := "c", app_id := "a", role := "doctor", scopes := [],
        type := "access", exp := 10, iat := 0 } SECRET_KEY) 10 =
      Except.error "Token has expired" ∧
    verify_token TokenWire.malformed 0 = Except.error "Invalid token" :=
  ⟨((verify_token_cases _ 0).2.2.2 _ "forged-key" rfl (by decide)),
   ((verify_token_cases _ 10).1 _ rfl (by decide)),
   ((verify_token_cases TokenWire.malformed 0).2.2.1 rfl)⟩

/-- C6: `validate_token` wraps `verify_token`: a token that verifies and
is unexpired but whose token-type tag is not "access" yields valid:false
with "Invalid token type"; every `verify_token` failure is forwarded as
valid:false with its error; on success it returns valid with client_id,
app_id, role and scopes. -/
theorem validate_token_cases (t : TokenWire) (now : Nat) :
    (∀ p, t = TokenWire.signed p SECRET_KEY → now < p.exp → p.type ≠ "access" →
      validate_token t now = ValidateResult.err "Invalid token type") ∧
    (∀ e, verify_token t now = Except.error e →
      validate_token t now = ValidateResult.err e) ∧
    (∀ p, verify_token t now = Except.ok p → p.type = "access" →
      validate_token t now = ValidateResult.ok p.client_id p.app_id p.role p.scopes) := by
  refine ⟨?_, ?_, ?_⟩
  · intro p ht hexp htype
    subst ht
    simp [validate_token, verify_token, Nat.not_le.mpr hexp, htype]
  · intro e he
    simp [validate_token, he]
  · intro p hp htype
    simp [validate_token, hp, htype]

theorem validate_token_cases_witness :
    validate_token (TokenWire.signed
      { client_id := "c", app_id := "a", role := "doctor", scopes := [],
        type := "refresh", exp := 100, iat := 0 } SECRET_KEY) 0 =
      ValidateResult.err "Invalid token type" :=
  (validate_token_cases _ 0).1 _ rfl (by decide) (by decide)

/-- C7: `require_role` is true exactly when `validate_token` succeeds and
the token's role is in the allowed list; `require_scope` is true exactly
when it succeeds and the scope is among the token's scopes; both are
false on every invalid or expired token instead of propagating the error. -/
theorem require_role_scope_spec (t : TokenWire) (now : Nat)
    (roles : List String) (scope : String) :
    (require_role t now roles = true ↔
      ∃ c a r s, validate_token t now = ValidateResult.ok c a r s ∧ r ∈ roles) ∧
    (require_scope t now scope = true ↔
      ∃ c a r s, validate_token t now = ValidateResult.ok c a r s ∧ scope ∈ s) ∧
    (∀ e, validate_token t now = ValidateResult.err e →
      require_role t now roles = false ∧ require_scope t now scope = false) := by
  refine ⟨?_, ?_, ?_⟩
  · cases hv : validate_token t now with
    | ok c a r s =>
      simp only [require_role, hv, List.contains_iff_exists_mem_beq, beq_iff_eq]
      constructor
      · rintro ⟨x, hx, rfl⟩
        exact ⟨c, a, r, s, rfl, hx⟩
      · rintro ⟨c1, a1, r1, s1, heq, hmem⟩
        cases heq
        exact ⟨r, hmem, rfl⟩
    | err e => simp [require_role, hv]
  · cases hv : validate_token t now with
    | ok c a r s =>
      simp only [require_scope, hv, List.contains_iff_exists_mem_beq, beq_iff_eq]
      constructor
      · rintro ⟨x, hx, rfl⟩
        exact ⟨c, a, r, s, rfl, hx⟩
      · rintro ⟨c1, a1, r1, s1, heq, hmem⟩
        cases heq
        exact ⟨scope, hmem, rfl⟩
    | err e => simp [require_scope, hv]

  · intro e he
    exact ⟨by simp [require_role, he], by simp [require_scope, he]⟩

theorem require_role_scope_spec_witness :
    require_role TokenWire.malformed 7 ["doctor"] = false ∧
    require_scope TokenWire.malformed 7 "read:patients" = false :=
  (require_role_scope_spec TokenWire.malformed 7 ["doctor"] "read:patients").2.2
    "Invalid token" (by decide)

/-- C8: the dispatcher invokes a record-access handler only when the
operation is not one of the three auth operations, a bearer token is
present, and `validate_token` accepts it; an absent or invalid token is
rejected with an error before any handler runs. -/
theorem call_tool_guard (name : String) (req : ToolRequest) (now : Nat) :
    (∀ hname, call_tool name req now = CallOutcome.handlerInvoked hname →
      hname = name ∧ name ∉ authOps ∧
      ∃ t c a r s, req.access_token = some t ∧
        validate_token t now = ValidateResult.ok c a r s) ∧
    (name ∉ authOps → req.access_token = none →
      call_tool name req now = CallOutcome.rejected "Access token required") ∧
    (∀ t e, name ∉ authOps → req.access_token = some t →
      validate_token t now = ValidateResult.err e →
      call_tool name req now = CallOutcome.rejected ("Invalid token: " ++ e)) := by
  refine ⟨?_, ?_, ?_⟩
  · intro hname hcall
    by_cases ha : name = "authenticate"
    · simp [call_tool, ha] at hcall
    by_cases hr : name = "register_client"
    · simp [call_tool, ha, hr] at hcall
    by_cases hv : name = "validate_token"
    · simp [call_tool, ha, hr, hv] at hcall
    refine ⟨?_, ?_, ?_⟩
    · simp only [call_tool, beq_iff_eq, ha, hr, hv, if_false] at hcall
      cases htok : req.access_token with
      | none => simp [htok] at hcall
      | some t =>
        rw [htok] at hcall
        cases hval : validate_token t now with
        | err e => simp [hval] at hcall
        | ok c a r s =>
          by_cases hh : name ∈ recordHandlers
          · simp [hval, hh] at hcall
            exact hcall.symm
          · simp [hval, hh] at hcall
    · simp [authOps, ha, hr, hv]
    · simp only [call_tool, beq_iff_eq, ha, hr, hv, if_false] at hcall
      cases htok : req.access_token with
      | none => simp [htok] at hcall
      | some t =>
        rw [htok] at hcall
        cases hval : validate_token t now with
        | err e => simp [hval] at hcall
        | ok c a r s =>
          by_cases hh : name ∈ recordHandlers
          · exact ⟨t, c, a, r, s, rfl, hval⟩
          · simp [hval, hh] at hcall
  · intro hmem htok
    have ha : name ≠ "authenticate" := by simp [authOps] at hmem; exact hmem.1
    have hr : name ≠ "register_client" := by simp [authOps] at hmem; exact hmem.2.1
    have hv : name ≠ "validate_token" := by simp [authOps] at hmem; exact hmem.2.2
    simp [call_tool, beq_iff_eq, ha, hr, hv, htok]
  · intro t e hmem htok hval
    have ha : name ≠ "authenticate" := by simp [authOps] at hmem; exact hmem.1
    have hr : name ≠ "register_client" := by simp [authOps] at hmem; exact hmem.2.1
    have hv : name ≠ "validate_token" := by simp [authOps] at hmem; exact hmem.2.2
    simp [call_tool, beq_iff_eq, ha, hr, hv, htok, hval]

theorem call_tool_guard_witness :
    call_tool "get_patient" ⟨none⟩ 3 = CallOutcome.rejected "Access token required" ∧
    call_tool "get_patient" ⟨some TokenWire.malformed⟩ 3 =
      CallOutcome.rejected ("Invalid token: " ++ "Invalid token") :=
  ⟨(call_tool_guard "get_patient" ⟨none⟩ 3).2.1 (by decide) rfl,
   (call_tool_guard "get_patient" ⟨some TokenWire.malformed⟩ 3).2.2
     TokenWire.malformed "Invalid token" (by decide) rfl (by decide)⟩

/-- C9: when the storage uniqueness constraint on `client_id` rejects the
insert of the freshly generated credential, `register_client` returns the
duplicate-client failure as an error result (the table rolled back, the
process alive), not a crash. -/
theorem register_duplicate (db : List OAuthClient)
    (app_id app_name role : String) (scopes : List String)
    (description contact_email rand_id rand_secret : String) (now : Nat)
    (c : OAuthClient) (hc : c ∈ db) (hid : c.client_id = "client_" ++ rand_id) :
    register_client db app_id app_name role scopes description contact_email
      rand_id rand_secret now = (RegisterResult.error duplicateClientMessage, db) := by
  have hdup : db.any
      (fun c0 => c0.client_id == (newOAuthClient app_id app_name role scopes
        description contact_email ("client_" ++ rand_id) rand_secret now).client_id) =
      true := by
    simp only [List.any_eq_true]
    exact ⟨c, hc, by simp [newOAuthClient, hid]⟩
  simp [register_client, generate_client_credentials, insertClient, hdup]

theorem register_duplicate_witness :
    register_client
      [{ client_id := "client_r9", client_secret_hash := "h", app_id := "appX",
         app_name := "older app", scopes := some [], role := "system",
         description := "", contact_email := "", created_at := 0,
         is_active := true, last_used := none, rate_limit := 1000 }]
      "appY" "newer app" "admin" ["read:patients"] "" "" "r9" "s9" 11 =
      (RegisterResult.error duplicateClientMessage,
       [{ client_id := "client_r9", client_secret_hash := "h", app_id := "appX",
          app_name := "older app", scopes := some [], role := "system",
          description := "", contact_email := "", created_at := 0,
          is_active := true, last_used := none, rate_limit := 1000 }]) :=
  register_duplicate _ "appY" "newer app" "admin" ["read:patients"] "" "" "r9" "s9" 11
    { client_id := "client_r9", client_secret_hash := "h", app_id := "appX",
      app_name := "older app", scopes := some [], role := "system",
      description := "", contact_email := "", created_at := 0,
      is_active := true, last_used := none, rate_limit := 1000 }
    (by simp) rfl

/-- C10: `authenticate_client` performs no database write on the
invalid-credentials path — the table is returned unchanged — and in every
run each stored row is either untouched or has exactly its last-used
timestamp set to the authentication time (the success-path update). -/
theorem authenticate_client_frame (db : List OAuthClient)
    (client_id client_secret app_id : String) (now : Nat) :
    (∀ m, (authenticate_client db client_id client_secret app_id now).1 =
        AuthResult.error m →
      (authenticate_client db client_id client_secret app_id now).2 = db) ∧
    ((authenticate_client db client_id client_secret app_id now).2).length =
      db.length ∧
    (∀ i : Nat,
      ((authenticate_client db client_id client_secret app_id now).2)[i]? = db[i]? ∨
      ∃ c, db[i]? = some c ∧
        ((authenticate_client db client_id client_secret app_id now).2)[i]? =
          some { c with last_used := some now }) := by
  have hdb : (authenticate_client db client_id client_secret app_id now).2 = db ∨
      (authenticate_client db client_id client_secret app_id now).2 =
        updateFirst (authMatch client_id app_id)
          (fun c => { c with last_used := some now }) db := by
    cases hf : db.find? (authMatch client_id app_id) with
    | none => left; simp [authenticate_client, hf]
    | some client =>
      cases hv : verify_secret client_secret client.client_secret_hash with
      | false => left; simp [authenticate_client, hf, hv]
      | true => right; simp [authenticate_client, hf, hv]
  refine ⟨?_, ?_, ?_⟩
  · intro m hm
    cases hf : db.find? (authMatch client_id app_id) with
    | none => simp [authenticate_client, hf]
    | some client =>
      cases hv : verify_secret client_secret client.client_secret_hash with
      | false => simp [authenticate_client, hf, hv]
      | true => simp [authenticate_client, hf, hv] at hm
  · cases hdb with
    | inl h => rw [h]
    | inr h => rw [h, updateFirst_length]
  · intro i
    cases hdb with
    | inl h => left; rw [h]
    | inr h =>
      rw [h]
      exact updateFirst_getElem (authMatch client_id app_id)
        (fun c => { c with last_used := some now }) db i

theorem authenticate_client_frame_witness :
    (authenticate_client
      [{ client_id := "client_c10", client_secret_hash := hash_secret "right-secret",
         app_id := "app10", app_name := "n", scopes := some [], role := "nurse",
         description := "", contact_email := "", created_at := 0,
         is_active := true, last_used := none, rate_limit := 1000 }]
      "client_c10" "wrong-secret" "app10" 99).2 =
    [{ client_id := "client_c10", client_secret_hash := hash_secret "right-secret",
       app_id := "app10", app_name := "n", scopes := some [], role := "nurse",
       description := "", contact_email := "", created_at := 0,
       is_active := true, last_used := none, rate_limit := 1000 }] :=
  (authenticate_client_frame _ "client_c10" "wrong-secret" "app10" 99).1
    "Invalid client credentials" (by decide)

/-- C3: an authentication attempt that finds no active (clientId, appId)
credential and one that finds the credential but fails secret
verification return equal values — the same invalid-credentials error —
so the two causes are indistinguishable from the result. -/
theorem auth_failure_indistinguishable
    (db1 db2 : List OAuthClient) (cid1 sec1 aid1 cid2 sec2 aid2 : String)
    (now1 now2 : Nat) (c : OAuthClient)
    (h1 : db1.find? (authMatch cid1 aid1) = none)
    (h2 : db2.find? (authMatch cid2 aid2) = some c)
    (h3 : verify_secret sec2 c.client_secret_hash = false) :
    (authenticate_client db1 cid1 sec1 aid1 now1).1 =
      AuthResult.error "Invalid client credentials" ∧
    (authenticate_client db2 cid2 sec2 aid2 now2).1 =
      (authenticate_client db1 cid1 sec1 aid1 now1).1 := by
  constructor
  · simp [authenticate_client, h1]
  · simp [authenticate_client, h1, h2, h3]

theorem auth_failure_indistinguishable_witness :
    (authenticate_client
      [{ client_id := "client_c3", client_secret_hash := hash_secret "true-secret",
         app_id := "app3", app_name := "n", scopes := some [], role := "doctor",
         description := "", contact_email := "", created_at := 0,
         is_active := true, last_used := none, rate_limit := 1000 }]
      "client_c3" "guessed-secret" "app3" 8).1 =
    (authenticate_client [] "client_absent" "irrelevant" "app3" 8).1 :=
  (auth_failure_indistinguishable [] _ "client_absent" "irrelevant" "app3"
    "client_c3" "guessed-secret" "app3" 8 8
    { client_id := "client_c3", client_secret_hash := hash_secret "true-secret",
      app_id := "app3", app_name := "n", scopes := some [], role := "doctor",
      description := "", contact_email := "", created_at := 0,
      is_active := true, last_used := none, rate_limit := 1000 }
    rfl (by decide) (by decide)).2

/-- C2: registering a credential and immediately authenticating with the
returned (clientId, secret, applicationId) succeeds: the stored row gains
a last-used timestamp equal to the authentication time and the minted
token is signed with the server key, expires exactly 60 minutes after
issuance, and embeds exactly the registered clientId, applicationId, role
and scopes. -/
theorem register_then_authenticate
    (db : List OAuthClient) (app_id app_name role : String) (scopes : List String)
    (description contact_email rand_id rand_secret : String) (now1 now2 : Nat)
    (hfresh : ∀ c ∈ db, c.client_id ≠ "client_" ++ rand_id) :
    register_client db app_id app_name role scopes description contact_email
        rand_id rand_secret now1 =
      (RegisterResult.success ("client_" ++ rand_id) rand_secret app_id app_name
         role scopes registerSuccessMessage,
       db ++ [newOAuthClient app_id app_name role scopes description contact_email
                ("client_" ++ rand_id) rand_secret now1]) ∧
    authenticate_client
        (db ++ [newOAuthClient app_id app_name role scopes description contact_email
                  ("client_" ++ rand_id) rand_secret now1])
        ("client_" ++ rand_id) rand_secret app_id now2 =
      (AuthResult.success
         (TokenWire.signed
           { client_id := "client_" ++ rand_id, app_id := app_id, role := role,
             scopes := scopes, type := "access", exp := now2 + 3600, iat := now2 }
           SECRET_KEY)
         "Bearer" 3600 (String.intercalate " " scopes)
         ⟨"client_" ++ rand_id, app_id, app_name, role⟩,
       db ++ [{ newOAuthClient app_id app_name role scopes description contact_email
                  ("client_" ++ rand_id) rand_secret now1 with
                last_used := some now2 }]) := by
  have hidne : ∀ c ∈ db, (c.client_id == ("client_" ++ rand_id)) = false := by
    intro c hc
    simp only [beq_eq_false_iff_ne, ne_eq]
    exact hfresh c hc
  have hmatchdb : ∀ c ∈ db, authMatch ("client_" ++ rand_id) app_id c = false := by
    intro c hc
    simp [authMatch, hidne c hc]
  have hmatchnc : authMatch ("client_" ++ rand_id) app_id
      (newOAuthClient app_id app_name role scopes description contact_email
        ("client_" ++ rand_id) rand_secret now1) = true := by
    simp [authMatch, newOAuthClient]
  constructor
  · have hany : (db.any (fun c0 => c0.client_id ==
        (newOAuthClient app_id app_name role scopes description contact_email
          ("client_" ++ rand_id) rand_secret now1).client_id)) = false := by
      simp only [List.any_eq_false]
      intro c hc
      simp only [newOAuthClient, Bool.not_eq_true]
      exact hidne c hc
    simp [register_client, generate_client_credentials, insertClient, hany]
  · have hfind : (db ++ [newOAuthClient app_id app_name role scopes description
        contact_email ("client_" ++ rand_id) rand_secret now1]).find?
          (authMatch ("client_" ++ rand_id) app_id) =
        some (newOAuthClient app_id app_name role scopes description contact_email
          ("client_" ++ rand_id) rand_secret now1) := by
      rw [List.find?_append]
      have h1 : db.find? (authMatch ("client_" ++ rand_id) app_id) = none := by
        rw [List.find?_eq_none]
        intro x hx
        simp [hmatchdb x hx]
      rw [h1, List.find?_cons_of_pos _ hmatchnc]
      rfl
    have hupd : updateFirst (authMatch ("client_" ++ rand_id) app_id)
        (fun c => { c with last_used := some now2 })
        (db ++ [newOAuthClient app_id app_name role scopes description contact_email
          ("client_" ++ rand_id) rand_secret now1]) =
        db ++ [{ newOAuthClient app_id app_name role scopes description contact_email
          ("client_" ++ rand_id) rand_secret now1 with last_used := some now2 }] := by
      rw [updateFirst_append _ _ db _ hmatchdb]
      simp [updateFirst, hmatchnc]
    have hver : verify_secret rand_secret
        (newOAuthClient app_id app_name role scopes description contact_email
          ("client_" ++ rand_id) rand_secret now1).client_secret_hash = true := by
      simp [verify_secret, newOAuthClient]
    simp only [authenticate_client, hfind, hver, hupd]
    simp [newOAuthClient, create_access_token, ACCESS_TOKEN_EXPIRE_MINUTES]

theorem register_then_authenticate_witness :
    register_client [] "app2" "Vitals App" "nurse" ["read:vitals", "write:vitals"]
        "" "" "r2" "s2" 100 =
      (RegisterResult.success "client_r2" "s2" "app2" "Vitals App" "nurse"
         ["read:vitals", "write:vitals"] registerSuccessMessage,
       [newOAuthClient "app2" "Vitals App" "nurse" ["read:vitals", "write:vitals"]
          "" "" "client_r2" "s2" 100]) ∧
    authenticate_client
        [newOAuthClient "app2" "Vitals App" "nurse" ["read:vitals", "write:vitals"]
           "" "" "client_r2" "s2" 100]
        "client_r2" "s2" "app2" 200 =
      (AuthResult.success
         (TokenWire.signed
           { client_id := "client_r2", app_id := "app2", role := "nurse",
             scopes := ["read:vitals", "write:vitals"], type := "access",
             exp := 200 + 3600, iat := 200 }
           SECRET_KEY)
         "Bearer" 3600 (String.intercalate " " ["read:vitals", "write:vitals"])
         ⟨"client_r2", "app2", "Vitals App", "nurse"⟩,
       [{ newOAuthClient "app2" "Vitals App" "nurse" ["read:vitals", "write:vitals"]
            "" "" "client_r2" "s2" 100 with last_used := some 200 }]) := by
  have h := register_then_authenticate [] "app2" "Vitals App" "nurse"
    ["read:vitals", "write:vitals"] "" "" "r2" "s2" 100 200 (by simp)
  simpa using h

/-! ## C4: shape of the hash, and the limits of collision-freeness -/

theorem bytesToHexChars_length :
    ∀ bs : List Nat, (bytesToHexChars bs).length = 2 * bs.length := by
  intro bs
  induction bs with
  | nil => rfl
  | cons b rest ih =>
    simp [bytesToHexChars, byteToHex, ih]
    omega

theorem sha256Bytes_length (msg : List Nat) : (sha256Bytes msg).length = 32 := by
  simp [sha256Bytes, stateBytes, wordBytes]

/-- Every digest `hash_secret` produces is exactly 64 hex characters. -/
theorem hash_secret_length (s : String) : (hash_secret s).data.length = 64 := by
  show (bytesToHexChars (sha256Bytes (strBytes s))).length = 64
  rw [bytesToHexChars_length, sha256Bytes_length]

theorem char_fin_injective :
    Function.Injective (fun c : Char => c.val.toBitVec.toFin) := by
  intro a b hab
  cases a with
  | mk av ap =>
    cases b with
    | mk bv bp =>
      cases av with
      | mk abv =>
        cases bv with
        | mk bbv =>
          cases abv
          cases bbv
          simp_all

instance : Finite Char := Finite.of_injective _ char_fin_injective

/-- C4 counterexample: the claim that `verify_secret s1 (hash_secret s2)`
is false for every pair of distinct secrets cannot hold — it would make
the fixed-width 64-character SHA-256 digest injective on the infinite
type of strings. -/
theorem hash_injectivity_refuted :
    ¬ ∀ s1 s2 : String, s1 ≠ s2 → verify_secret s1 (hash_secret s2) = false := by
  intro H
  have hinj : Function.Injective hash_secret := by
    intro s1 s2 h
    by_contra hne
    have hfalse := H s1 s2 hne
    simp [verify_secret, h] at hfalse
  have hF : Function.Injective
      (fun s : String => fun i : Fin 64 => (hash_secret s).data.getD i.val 'a') := by
    intro s1 s2 h
    apply hinj
    have l1 := hash_secret_length s1
    have l2 := hash_secret_length s2
    have hdata : (hash_secret s1).data = (hash_secret s2).data := by
      apply List.ext_get (by rw [l1, l2])
      intro n h1 h2
      have hn : n < 64 := by rw [l1] at h1; exact h1
      have hcong := congrFun h ⟨n, hn⟩
      simp only at hcong
      rw [List.getD_eq_getElem _ _ h1, List.getD_eq_getElem _ _ h2] at hcong
      simpa using hcong
    calc hash_secret s1 = ⟨(hash_secret s1).data⟩ := rfl
      _ = ⟨(hash_secret s2).data⟩ := by rw [hdata]
      _ = hash_secret s2 := rfl
  exact (Infinite.not_finite : ¬ Finite String) (Finite.of_injective _ hF)

/-- C4 (amended): `hash_secret` is deterministic; `verify_secret s digest`
is true exactly when `hash_secret s` equals `digest`; hence every secret
verifies against its own digest, and `verify_secret s1 (hash_secret s2)`
is false whenever the two digests differ — the most that can hold, since
a fixed-width digest is not injective on all strings. -/
theorem verify_hash_spec :
    (∀ s1 s2 : String, s1 = s2 → hash_secret s1 = hash_secret s2) ∧
    (∀ s digest, verify_secret s digest = true ↔ hash_secret s = digest) ∧
    (∀ s, verify_secret s (hash_secret s) = true) ∧
    (∀ s1 s2, hash_secret s1 ≠ hash_secret s2 →
      verify_secret s1 (hash_secret s2) = false) := by
  refine ⟨?_, ?_, ?_, ?_⟩
  · intro s1 s2 h
    rw [h]
  · intro s digest
    simp [verify_secret]
  · intro s
    simp [verify_secret]
  · intro s1 s2 h
    simp only [verify_secret, beq_eq_false_iff_ne, ne_eq]
    exact h

theorem verify_hash_spec_witness :
    hash_secret "alpha" = hash_secret "alpha" ∧
    verify_secret "alpha" (hash_secret "alpha") = true ∧
    verify_secret "alpha" (hash_secret "beta") = false :=
  ⟨verify_hash_spec.1 "alpha" "alpha" rfl,
   verify_hash_spec.2.2.1 "alpha",
   verify_hash_spec.2.2.2 "alpha" "beta" (by decide)⟩

end EhrAuth
